import Mathlib

/-!
A verification development for the NBA milestone classification engine
(nba_processor).  The Python modules src/utils/helpers.py and
src/nba_processor/engines/milestone_engine.py are shallowly embedded below:
dynamically typed values become the inductive type PyVal, Python floats are
modelled as exact fractions (with distinguished literals for inf and nan,
which the code can produce from strings), fallible operations return
Except PyErr, and the mutable MilestoneResults dataclass becomes a finite map
from a closed category enumeration to entry lists, mutated by an explicit
append sequence.  String scanning is done over character lists and fraction
arithmetic over unnormalized integer pairs so that every definition reduces
computationally.
-/

/-- The Python exception classes that the embedded code can raise. -/
inductive PyErr where
  | typeError
  | valueError
  | overflowError
deriving DecidableEq, Repr

/-- An exact fraction num/den with a nonzero denominator (maintained by
construction: every denominator built below is a product of nonzero
integers).  Finite Python float values are modelled by their exact value as
such a fraction; IEEE rounding is not modelled. -/
structure Frac where
  num : ℤ
  den : ℤ
deriving DecidableEq, Repr

namespace Frac

/-- Embed an integer. -/
def ofInt (n : ℤ) : Frac := ⟨n, 1⟩

/-- Sign-normalize so the denominator is nonnegative. -/
def norm (a : Frac) : Frac := if a.den < 0 then ⟨-a.num, -a.den⟩ else a

def add (a b : Frac) : Frac := ⟨a.num * b.den + b.num * a.den, a.den * b.den⟩

def sub (a b : Frac) : Frac := ⟨a.num * b.den - b.num * a.den, a.den * b.den⟩

def mul (a b : Frac) : Frac := ⟨a.num * b.num, a.den * b.den⟩

/-- Division; callers only divide by a fraction with nonzero value. -/
def div (a b : Frac) : Frac := ⟨a.num * b.den, a.den * b.num⟩

def neg (a : Frac) : Frac := ⟨-a.num, a.den⟩

/-- Value comparison a ≤ b, valid for nonzero denominators: multiply both
sides by the square of the product of denominators. -/
def le (a b : Frac) : Bool :=
  a.num * a.den * b.den ^ 2 ≤ b.num * b.den * a.den ^ 2

/-- Value comparison a < b, valid for nonzero denominators. -/
def lt (a b : Frac) : Bool :=
  a.num * a.den * b.den ^ 2 < b.num * b.den * a.den ^ 2

/-- Value equality test (the Python == on numbers). -/
def veq (a b : Frac) : Bool := a.num * b.den = b.num * a.den

/-- The value is zero (denominators are nonzero by construction). -/
def isZero (a : Frac) : Bool := a.num = 0

/-- Floor of the value. -/
def floor (a : Frac) : ℤ := (a.norm).num.fdiv (a.norm).den

/-- Truncation toward zero, the behaviour of the Python int(float)
conversion on finite values. -/
def trunc (a : Frac) : ℤ := (a.norm).num.tdiv (a.norm).den

/-- Round half to even to an integer, the behaviour of Python round(). -/
def roundHalfEven (a : Frac) : ℤ :=
  let f := a.floor
  let r := a.sub (ofInt f)
  if lt r ⟨1, 2⟩ then f
  else if lt ⟨1, 2⟩ r then f + 1
  else if f % 2 = 0 then f else f + 1

/-- Models Python round(x, ndigits) on floats, as exact decimal rounding half
to even (binary representation artifacts are not modelled). -/
def pyRound (a : Frac) (ndigits : ℕ) : Frac :=
  ⟨roundHalfEven (a.mul ⟨(10 : ℤ) ^ ndigits, 1⟩), (10 : ℤ) ^ ndigits⟩

end Frac

/-- A Python float value: either a finite value or one of the non-finite
literals inf, -inf, nan which float(str) can produce. -/
inductive FloatLit where
  | finite (q : Frac)
  | inf
  | negInf
  | nan
deriving DecidableEq, Repr

/-- A dynamically typed Python value as it occurs in the player records fed to
the engine: int, float, str, None, or any other (unparseable) object. -/
inductive PyVal where
  | int (n : ℤ)
  | float (f : FloatLit)
  | str (s : String)
  | none
  | other
deriving DecidableEq, Repr

/-- Whitespace for the purposes of str.strip. -/
def pyWS (c : Char) : Bool := c = ' ' || c = '\t' || c = '\n' || c = '\r'

/-- Models str.strip on a character list. -/
def trimChars (cs : List Char) : List Char :=
  ((cs.dropWhile pyWS).reverse.dropWhile pyWS).reverse

/-- ASCII lowercasing, as applied by float() to inf / nan / e spellings. -/
def lowerAscii (cs : List Char) : List Char :=
  cs.map (fun c => if 'A' ≤ c ∧ c ≤ 'Z' then Char.ofNat (c.toNat + 32) else c)

/-- All characters are decimal digits and there is at least one. -/
def allDigitsL (cs : List Char) : Bool := cs.all (fun c => c.isDigit) && !cs.isEmpty

/-- Numeric value of a digit list. -/
def digitsValL (cs : List Char) : ℕ :=
  cs.foldl (fun acc c => acc * 10 + (c.toNat - '0'.toNat)) 0

/-- Optional sign followed by digits, no interior whitespace. -/
def parseSignedDigits (cs : List Char) : Option ℤ :=
  match cs with
  | '-' :: rest =>
      if allDigitsL rest then some (-(digitsValL rest : ℤ)) else Option.none
  | '+' :: rest =>
      if allDigitsL rest then some (digitsValL rest : ℤ) else Option.none
  | _ => if allDigitsL cs then some (digitsValL cs : ℤ) else Option.none

/-- Models Python int(str): strips, then optional sign followed by digits;
otherwise a ValueError, rendered as Option.none.  (Underscore separators are
not modelled.) -/
def pyIntParse (s : String) : Option ℤ := parseSignedDigits (trimChars s.data)

/-- Splitting a character list on a separator character, with the semantics of
str.split(sep): the result always has one more group than there are
separators. -/
def splitChar (sep : Char) : List Char → List (List Char)
  | [] => [[]]
  | c :: rest =>
      match splitChar sep rest with
      | [] => [[]]
      | g :: gs => if c = sep then [] :: g :: gs else (c :: g) :: gs

/-- Integer power of ten as a fraction, for exponents of float literals. -/
def powTen (e : ℤ) : Frac :=
  if 0 ≤ e then ⟨(10 : ℤ) ^ e.toNat, 1⟩ else ⟨1, (10 : ℤ) ^ (-e).toNat⟩

/-- Mantissa of a float literal: digits, optionally digits on either side of a
single decimal point, with at least one digit overall. -/
def parseMantissa (cs : List Char) : Option Frac :=
  match splitChar '.' cs with
  | [i] =>
      if allDigitsL i then some (Frac.ofInt (digitsValL i : ℤ)) else Option.none
  | [i, f] =>
      if (i.isEmpty || allDigitsL i) && (f.isEmpty || allDigitsL f)
          && !(i.isEmpty && f.isEmpty) then
        some ⟨(digitsValL i : ℤ) * (10 : ℤ) ^ f.length + (digitsValL f : ℤ),
              (10 : ℤ) ^ f.length⟩
      else Option.none
  | _ => Option.none

/-- Unsigned part of a float literal, with optional exponent part. -/
def parseUnsignedFloat (cs : List Char) : Option Frac :=
  match splitChar 'e' cs with
  | [m] => parseMantissa m
  | [m, e] => do
      let q ← parseMantissa m
      let ex ← parseSignedDigits e
      pure (q.mul (powTen ex))
  | _ => Option.none

/-- Models Python float(str): strips and lowercases, accepts inf / infinity /
nan with optional sign, otherwise a decimal literal; a parse failure is the
ValueError path, rendered as Option.none.  Finite literals are kept exact
(overflow of huge finite literals to inf is not modelled, nor are underscore
separators). -/
def pyFloatParse (s : String) : Option FloatLit :=
  let cs := lowerAscii (trimChars s.data)
  let core : Bool → List Char → Option FloatLit := fun neg body =>
    if body = "inf".data ∨ body = "infinity".data then
      some (if neg then FloatLit.negInf else FloatLit.inf)
    else if body = "nan".data then some FloatLit.nan
    else
      match parseUnsignedFloat body with
      | some q => some (FloatLit.finite (if neg then q.neg else q))
      | Option.none => Option.none
  match cs with
  | '-' :: rest => core true rest
  | '+' :: rest => core false rest
  | _ => core false cs

/-- helpers.safe_int.  The try block wraps int(float(value.strip())) and the
except clause catches only ValueError and AttributeError, so the OverflowError
raised by int() on an infinite float escapes; int() on a nan raises a
ValueError, which is caught on the string branch but uncaught on the direct
float branch (that conversion sits outside the try). -/
def safe_int (value : PyVal) (default : ℤ) : Except PyErr ℤ :=
  match value with
  | .none => .ok default
  | .int n => .ok n
  | .float (.finite q) => .ok q.trunc
  | .float .inf => .error .overflowError
  | .float .negInf => .error .overflowError
  | .float .nan => .error .valueError
  | .str s =>
      match pyFloatParse s with
      | some (.finite q) => .ok q.trunc
      | some .inf => .error .overflowError
      | some .negInf => .error .overflowError
      | some .nan => .ok default
      | Option.none => .ok default
  | .other => .ok default

/-- helpers.parse_minutes: numbers pass through as floats; a string with a
colon is split into minutes and seconds (int-parsed, falling back to 0.0 on
failure); any other string goes through float(), falling back to 0.0 on a
ValueError; every other value yields 0.0. -/
def parse_minutes (mp : PyVal) : FloatLit :=
  match mp with
  | .int n => .finite (Frac.ofInt n)
  | .float f => f
  | .str s =>
      if s.data.contains ':' then
        let parts := splitChar ':' s.data
        let minutes := parseSignedDigits (trimChars (parts.headD []))
        let seconds : Option ℤ :=
          if parts.length > 1 then parseSignedDigits (trimChars (parts.getD 1 []))
          else some 0
        match minutes, seconds with
        | some m, some sec => .finite ((Frac.ofInt m).add (Frac.div (Frac.ofInt sec) (Frac.ofInt 60)))
        | _, _ => .finite (Frac.ofInt 0)
      else
        match pyFloatParse s with
        | some f => f
        | Option.none => .finite (Frac.ofInt 0)
  | _ => .finite (Frac.ofInt 0)

/-- The canonical per-player stat record built by the engine in
_check_player_milestones: thirteen integer fields coerced through safe_int,
plus the mp value, which stays a dynamic value (a float after parse_minutes
when the input was a string, otherwise whatever the record held). -/
structure Stats where
  pts : ℤ
  trb : ℤ
  ast : ℤ
  stl : ℤ
  blk : ℤ
  fg3 : ℤ
  fg3a : ℤ
  fg : ℤ
  fga : ℤ
  ft : ℤ
  fta : ℤ
  tov : ℤ
  plus_minus : ℤ
  mp : PyVal
deriving DecidableEq, Repr

/-- The five base categories in the fixed order pts, trb, ast, stl, blk used
by every multi-category helper. -/
def catVals (s : Stats) : List ℤ := [s.pts, s.trb, s.ast, s.stl, s.blk]

/-- Number of base categories at or above a threshold.  On the canonical
record the safe_int in the helpers is the identity, since the values are
already integers. -/
def countAtLeast (s : Stats) (threshold : ℤ) : ℕ :=
  (catVals s).countP (fun v => decide (threshold ≤ v))

/-- Number of base categories in the near band [near_threshold, threshold). -/
def countNear (s : Stats) (threshold near_threshold : ℤ) : ℕ :=
  (catVals s).countP (fun v => decide (near_threshold ≤ v ∧ v < threshold))

/-- helpers.is_triple_double (default threshold 10). -/
def is_triple_double (s : Stats) (threshold : ℤ) : Bool :=
  3 ≤ countAtLeast s threshold

/-- helpers.is_double_double (default threshold 10). -/
def is_double_double (s : Stats) (threshold : ℤ) : Bool :=
  2 ≤ countAtLeast s threshold

/-- helpers.is_quadruple_double (default threshold 10). -/
def is_quadruple_double (s : Stats) (threshold : ℤ) : Bool :=
  4 ≤ countAtLeast s threshold

/-- helpers.is_five_by_five (default threshold 5). -/
def is_five_by_five (s : Stats) (threshold : ℤ) : Bool :=
  (catVals s).all (fun v => decide (threshold ≤ v))

/-- helpers.is_near_triple_double (defaults 10 and 8): an explicit guard
returns false when three or more categories already reach the full threshold,
otherwise exactly two full categories and at least one in the near band. -/
def is_near_triple_double (s : Stats) (threshold near_threshold : ℤ) : Bool :=
  let at_threshold := countAtLeast s threshold
  let near := countNear s threshold near_threshold
  if 3 ≤ at_threshold then false
  else at_threshold = 2 && 1 ≤ near

/-- helpers.is_near_double_double (defaults 10 and 8). -/
def is_near_double_double (s : Stats) (threshold near_threshold : ℤ) : Bool :=
  let at_threshold := countAtLeast s threshold
  let near := countNear s threshold near_threshold
  if 2 ≤ at_threshold then false
  else at_threshold = 1 && 1 ≤ near

/-- helpers.is_all_around_game: 5 or more in all five categories, or 8 or
more in at least four of them. -/
def is_all_around_game (s : Stats) : Bool :=
  if (catVals s).all (fun v => decide (5 ≤ v)) then true
  else 4 ≤ (catVals s).countP (fun v => decide (8 ≤ v))

/-- helpers.is_hot_shooting (defaults 0.6 and 10). -/
def is_hot_shooting (s : Stats) (fg_pct_threshold : Frac) (min_attempts : ℤ) : Bool :=
  if s.fga < min_attempts then false
  else
    let fg_pct := if 0 < s.fga then (Frac.ofInt s.fg).div (Frac.ofInt s.fga)
                  else Frac.ofInt 0
    Frac.le fg_pct_threshold fg_pct

/-- helpers.is_perfect_from_three (default min_attempts 4). -/
def is_perfect_from_three (s : Stats) (min_attempts : ℤ) : Bool :=
  min_attempts ≤ s.fg3a && s.fg3 = s.fg3a

/-- helpers.is_perfect_ft (default min_attempts 5). -/
def is_perfect_ft (s : Stats) (min_attempts : ℤ) : Bool :=
  min_attempts ≤ s.fta && s.ft = s.fta

/-- helpers.is_perfect_fg (default min_attempts 5). -/
def is_perfect_fg (s : Stats) (min_attempts : ℤ) : Bool :=
  min_attempts ≤ s.fga && s.fg = s.fga

/-- helpers.calculate_true_shooting: pts / (2 * (fga + 0.44 * fta)), rounded
to three digits, or None when the denominator is zero. -/
def calculate_true_shooting (pts fga fta : ℤ) : Option Frac :=
  let denominator :=
    (Frac.ofInt 2).mul ((Frac.ofInt fga).add ((Frac.mk 44 100).mul (Frac.ofInt fta)))
  if denominator.isZero then Option.none
  else some (((Frac.ofInt pts).div denominator).pyRound 3)

/-- helpers.is_efficient_scoring (defaults 0.65 and 15). -/
def is_efficient_scoring (s : Stats) (ts_threshold : Frac) (min_points : ℤ) : Bool :=
  if s.pts < min_points then false
  else
    match calculate_true_shooting s.pts s.fga s.fta with
    | Option.none => false
    | some ts => Frac.le ts_threshold ts

/-- helpers.is_defensive_monster (default combined threshold 7). -/
def is_defensive_monster (s : Stats) (combined_threshold : ℤ) : Bool :=
  combined_threshold ≤ s.stl + s.blk

/-- helpers.calculate_game_score (the Hollinger formula, rounded to one
digit).  The engine passes its canonical stats dict, which has no orb, drb or
pf keys, so those three reads coerce to 0. -/
def calculate_game_score (s : Stats) : Frac :=
  let orb : ℤ := 0
  let drb : ℤ := 0
  let pf : ℤ := 0
  let d04 : Frac := ⟨4, 10⟩
  let d07 : Frac := ⟨7, 10⟩
  let d03 : Frac := ⟨3, 10⟩
  let g := (Frac.ofInt s.pts)
    |>.add (d04.mul (Frac.ofInt s.fg))
    |>.sub (d07.mul (Frac.ofInt s.fga))
    |>.sub (d04.mul (Frac.ofInt (s.fta - s.ft)))
    |>.add (d07.mul (Frac.ofInt orb))
    |>.add (d03.mul (Frac.ofInt drb))
    |>.add (Frac.ofInt s.stl)
    |>.add (d07.mul (Frac.ofInt s.ast))
    |>.add (d07.mul (Frac.ofInt s.blk))
    |>.sub (d04.mul (Frac.ofInt pf))
    |>.sub (Frac.ofInt s.tov)
  g.pyRound 1

/-- The Python comparison value >= bound for a float bound: numbers compare
by value (inf above everything, nan below every bound), while str, None and
any other object raise a TypeError. -/
def pyGeF (v : PyVal) (bound : Frac) : Except PyErr Bool :=
  match v with
  | .int n => .ok (Frac.le bound (Frac.ofInt n))
  | .float (.finite q) => .ok (Frac.le bound q)
  | .float .inf => .ok true
  | .float .negInf => .ok false
  | .float .nan => .ok false
  | .str _ => .error .typeError
  | .none => .error .typeError
  | .other => .error .typeError

/-- helpers.is_zero_turnover_game (default min_minutes 20.0).  The mp value
is re-read from the stats record, parsed when it is a string, and then
compared with mp >= min_minutes; the comparison is reached only when
tov == 0 (Python short-circuits and), and it raises a TypeError when mp is
None or an unparseable object. -/
def is_zero_turnover_game (s : Stats) (min_minutes : Frac) : Except PyErr Bool :=
  let mp := match s.mp with
    | .str str => PyVal.float (parse_minutes (.str str))
    | v => v
  if s.tov = 0 then pyGeF mp min_minutes else .ok false

/-- Joining with the slash separator, as "/".join does. -/
def joinSlash : List String → String
  | [] => ""
  | [x] => x
  | x :: rest => x ++ "/" ++ joinSlash rest

/-- helpers.get_double_double_categories (default threshold 10): the display
names of the base categories at double digits, in the fixed order pts, reb,
ast, stl, blk. -/
def get_double_double_categories (s : Stats) (threshold : ℤ) : String :=
  joinSlash
    ((if threshold ≤ s.pts then ["pts"] else [])
      ++ (if threshold ≤ s.trb then ["reb"] else [])
      ++ (if threshold ≤ s.ast then ["ast"] else [])
      ++ (if threshold ≤ s.stl then ["stl"] else [])
      ++ (if threshold ≤ s.blk then ["blk"] else []))

/-- First n characters of a string (Python slicing s[:n]). -/
def strTake (s : String) (n : ℕ) : String := ⟨s.data.take n⟩

/-- Rendering of a float already rounded to one decimal digit, as its
f-string interpolation prints it (e.g. 60.0 prints as "60.0"). -/
def fmtF1 (q : Frac) : String :=
  let n := Frac.roundHalfEven (q.mul ⟨10, 1⟩)
  if n < 0 then "-" ++ toString ((-n).toNat / 10) ++ "." ++ toString ((-n).toNat % 10)
  else toString (n.toNat / 10) ++ "." ++ toString (n.toNat % 10)

/-- The format spec .0f applied to the mp value (reached only after the
mp >= 20 comparison succeeded, so only on numbers). -/
def fmtF0 (v : PyVal) : String :=
  match v with
  | .int n => toString n
  | .float (.finite q) => toString q.roundHalfEven
  | .float .inf => "inf"
  | .float .negInf => "-inf"
  | .float .nan => "nan"
  | _ => ""

/-- MilestoneEntry, the dataclass for a single recorded achievement.  The
player and player_id fields hold whatever dynamic value the record carried
(the engine defaults them to the empty string). -/
structure MilestoneEntry where
  milestone_type : String
  player : PyVal
  player_id : PyVal
  team : String
  opponent : String
  game_id : String
  date : String
  side : String
  stats : Stats
  detail : String
  date_yyyymmdd : String
deriving DecidableEq, Repr

/-- Dataclass construction of a MilestoneEntry followed by __post_init__:
when date_yyyymmdd was not supplied (the dataclass default is the empty
string, which is also falsy), and game_id is truthy with at least 8
characters, date_yyyymmdd becomes the first 8 characters of game_id. -/
def MilestoneEntry.init (milestone_type : String) (player player_id : PyVal)
    (team opponent game_id date side : String) (stats : Stats)
    (detail : String) (date_yyyymmdd : String) : MilestoneEntry :=
  let e : MilestoneEntry :=
    ⟨milestone_type, player, player_id, team, opponent, game_id, date, side,
      stats, detail, date_yyyymmdd⟩
  if e.date_yyyymmdd = "" ∧ e.game_id ≠ "" ∧ 8 ≤ e.game_id.length then
    { e with date_yyyymmdd := strTake e.game_id 8 }
  else e

/-- The closed set of result categories: exactly the 56 list-valued fields of
the MilestoneResults dataclass, in declaration order. -/
inductive Cat where
  | quadruple_doubles
  | triple_doubles
  | double_doubles
  | near_triple_doubles
  | near_double_doubles
  | five_by_fives
  | all_around_games
  | seventy_point_games
  | sixty_point_games
  | fifty_point_games
  | forty_five_point_games
  | forty_point_games
  | thirty_five_point_games
  | thirty_point_games
  | twenty_five_point_games
  | twenty_point_games
  | twenty_five_rebound_games
  | twenty_rebound_games
  | eighteen_rebound_games
  | fifteen_rebound_games
  | twelve_rebound_games
  | ten_rebound_games
  | twenty_assist_games
  | fifteen_assist_games
  | twelve_assist_games
  | ten_assist_games
  | ten_steal_games
  | seven_steal_games
  | five_steal_games
  | four_steal_games
  | ten_block_games
  | seven_block_games
  | five_block_games
  | four_block_games
  | ten_three_games
  | eight_three_games
  | seven_three_games
  | six_three_games
  | five_three_games
  | perfect_from_three
  | hot_shooting_games
  | perfect_ft_games
  | perfect_fg_games
  | efficient_scoring_games
  | high_game_score
  | thirty_ten_games
  | twenty_five_ten_games
  | twenty_ten_games
  | twenty_ten_five_games
  | twenty_twenty_games
  | points_assists_double_double
  | defensive_monster_games
  | zero_turnover_games
  | plus_25_games
  | plus_20_games
  | minus_25_games
deriving DecidableEq, Repr, Fintype

/-- The attribute name of each category field. -/
def catKey : Cat → String
  | .quadruple_doubles => "quadruple_doubles"
  | .triple_doubles => "triple_doubles"
  | .double_doubles => "double_doubles"
  | .near_triple_doubles => "near_triple_doubles"
  | .near_double_doubles => "near_double_doubles"
  | .five_by_fives => "five_by_fives"
  | .all_around_games => "all_around_games"
  | .seventy_point_games => "seventy_point_games"
  | .sixty_point_games => "sixty_point_games"
  | .fifty_point_games => "fifty_point_games"
  | .forty_five_point_games => "forty_five_point_games"
  | .forty_point_games => "forty_point_games"
  | .thirty_five_point_games => "thirty_five_point_games"
  | .thirty_point_games => "thirty_point_games"
  | .twenty_five_point_games => "twenty_five_point_games"
  | .twenty_point_games => "twenty_point_games"
  | .twenty_five_rebound_games => "twenty_five_rebound_games"
  | .twenty_rebound_games => "twenty_rebound_games"
  | .eighteen_rebound_games => "eighteen_rebound_games"
  | .fifteen_rebound_games => "fifteen_rebound_games"
  | .twelve_rebound_games => "twelve_rebound_games"
  | .ten_rebound_games => "ten_rebound_games"
  | .twenty_assist_games => "twenty_assist_games"
  | .fifteen_assist_games => "fifteen_assist_games"
  | .twelve_assist_games => "twelve_assist_games"
  | .ten_assist_games => "ten_assist_games"
  | .ten_steal_games => "ten_steal_games"
  | .seven_steal_games => "seven_steal_games"
  | .five_steal_games => "five_steal_games"
  | .four_steal_games => "four_steal_games"
  | .ten_block_games => "ten_block_games"
  | .seven_block_games => "seven_block_games"
  | .five_block_games => "five_block_games"
  | .four_block_games => "four_block_games"
  | .ten_three_games => "ten_three_games"
  | .eight_three_games => "eight_three_games"
  | .seven_three_games => "seven_three_games"
  | .six_three_games => "six_three_games"
  | .five_three_games => "five_three_games"
  | .perfect_from_three => "perfect_from_three"
  | .hot_shooting_games => "hot_shooting_games"
  | .perfect_ft_games => "perfect_ft_games"
  | .perfect_fg_games => "perfect_fg_games"
  | .efficient_scoring_games => "efficient_scoring_games"
  | .high_game_score => "high_game_score"
  | .thirty_ten_games => "thirty_ten_games"
  | .twenty_five_ten_games => "twenty_five_ten_games"
  | .twenty_ten_games => "twenty_ten_games"
  | .twenty_ten_five_games => "twenty_ten_five_games"
  | .twenty_twenty_games => "twenty_twenty_games"
  | .points_assists_double_double => "points_assists_double_double"
  | .defensive_monster_games => "defensive_monster_games"
  | .zero_turnover_games => "zero_turnover_games"
  | .plus_25_games => "plus_25_games"
  | .plus_20_games => "plus_20_games"
  | .minus_25_games => "minus_25_games"

/-- The category fields in dataclass declaration order. -/
def allCats : List Cat :=
  [.quadruple_doubles, .triple_doubles, .double_doubles, .near_triple_doubles,
   .near_double_doubles, .five_by_fives, .all_around_games,
   .seventy_point_games, .sixty_point_games, .fifty_point_games,
   .forty_five_point_games, .forty_point_games, .thirty_five_point_games,
   .thirty_point_games, .twenty_five_point_games, .twenty_point_games,
   .twenty_five_rebound_games, .twenty_rebound_games, .eighteen_rebound_games,
   .fifteen_rebound_games, .twelve_rebound_games, .ten_rebound_games,
   .twenty_assist_games, .fifteen_assist_games, .twelve_assist_games,
   .ten_assist_games, .ten_steal_games, .seven_steal_games, .five_steal_games,
   .four_steal_games, .ten_block_games, .seven_block_games, .five_block_games,
   .four_block_games, .ten_three_games, .eight_three_games, .seven_three_games,
   .six_three_games, .five_three_games, .perfect_from_three,
   .hot_shooting_games, .perfect_ft_games, .perfect_fg_games,
   .efficient_scoring_games, .high_game_score, .thirty_ten_games,
   .twenty_five_ten_games, .twenty_ten_games, .twenty_ten_five_games,
   .twenty_twenty_games, .points_assists_double_double,
   .defensive_monster_games, .zero_turnover_games, .plus_25_games,
   .plus_20_games, .minus_25_games]

/-- Lexicographic comparison of character lists by code point, the string
order that the built-in dir() uses for attribute names. -/
def lexLt : List Char → List Char → Bool
  | [], [] => false
  | [], _ :: _ => true
  | _ :: _, [] => false
  | a :: as, b :: bs =>
      if a.toNat < b.toNat then true
      else if b.toNat < a.toNat then false
      else lexLt as bs

/-- Insertion into a list kept sorted by attribute name. -/
def insertCat (c : Cat) : List Cat → List Cat
  | [] => [c]
  | x :: xs =>
      if lexLt (catKey x).data (catKey c).data then x :: insertCat c xs
      else c :: x :: xs

/-- The category fields in the alphabetical order in which dir() enumerates
attributes. -/
def allCatsSorted : List Cat := allCats.foldr insertCat []

/-- The MilestoneResults dataclass, modelled as the finite map from its 56
list-valued category fields to their lists. -/
def MilestoneResults : Type := Cat → List MilestoneEntry

/-- A results object with every category list empty (fresh construction). -/
def emptyResults : MilestoneResults := fun _ => []

/-- One self.results.<category>.append(entry) mutation. -/
def appendEntry (r : MilestoneResults) (c : Cat) (e : MilestoneEntry) : MilestoneResults :=
  fun c' => if c' = c then r c' ++ [e] else r c'

/-- A sequence of append mutations applied in order. -/
def applyAppends (l : List (Cat × MilestoneEntry)) (r : MilestoneResults) : MilestoneResults :=
  l.foldl (fun acc p => appendEntry acc p.1 p.2) r

/-- MilestoneResults.to_dict: every non-underscore, non-method, list-valued
attribute — exactly the 56 category fields — keyed by attribute name in the
sorted order dir() yields.  (The per-entry dict conversion is the identity in
this model, since an entry is already a record of its fields.) -/
def to_dict (r : MilestoneResults) : List (String × List MilestoneEntry) :=
  allCatsSorted.map (fun c => (catKey c, r c))

/-- A per-player input mapping.  Each recognized key is optional (absent keys
model dict.get defaults) and holds an arbitrary dynamic value. -/
structure Player where
  name : Option PyVal
  player_id : Option PyVal
  pts : Option PyVal
  trb : Option PyVal
  ast : Option PyVal
  stl : Option PyVal
  blk : Option PyVal
  fg3 : Option PyVal
  fg3a : Option PyVal
  fg : Option PyVal
  fga : Option PyVal
  ft : Option PyVal
  fta : Option PyVal
  tov : Option PyVal
  plus_minus : Option PyVal
  mp : Option PyVal
deriving DecidableEq, Repr

/-- A player mapping with every key absent. -/
def emptyPlayer : Player :=
  ⟨Option.none, Option.none, Option.none, Option.none, Option.none,
   Option.none, Option.none, Option.none, Option.none, Option.none,
   Option.none, Option.none, Option.none, Option.none, Option.none,
   Option.none⟩

/-- One side section of a box score: optional players and basic keys. -/
structure SideData where
  players : Option (List Player)
  basic : Option (List Player)
deriving DecidableEq, Repr

/-- The box_score mapping with its optional away and home sections. -/
structure BoxScore where
  away : Option SideData
  home : Option SideData
deriving DecidableEq, Repr

/-- The basic_info mapping with its optional string fields. -/
structure BasicInfo where
  date : Option String
  date_yyyymmdd : Option String
  home_team : Option String
  away_team : Option String
deriving DecidableEq, Repr

/-- One game record as fed to process_games. -/
structure Game where
  game_id : Option String
  basic_info : Option BasicInfo
  box_score : Option BoxScore
deriving DecidableEq, Repr

inductive Side where
  | away
  | home
deriving DecidableEq, Repr

/-- box_score.get(side, empty dict): an absent box_score or side section
behaves as a mapping with no keys. -/
def sideLookup (bs : Option BoxScore) (side : Side) : Option SideData :=
  match bs with
  | Option.none => Option.none
  | some b => match side with
    | .away => b.away
    | .home => b.home

/-- _process_game.get_players_for_side: the players key if present and
non-empty (an empty list is falsy), else the basic key, else the empty
list. -/
def get_players_for_side (bs : Option BoxScore) (side : Side) : List Player :=
  let sd := sideLookup bs side
  let players := (sd.bind (fun d => d.players)).getD []
  if players.isEmpty then (sd.bind (fun d => d.basic)).getD [] else players

/-- The per-player call context of _check_player_milestones. -/
structure Ctx where
  team : String
  opponent : String
  game_id : String
  date : String
  side : String
deriving DecidableEq, Repr

/-- The stat-extraction block of _check_player_milestones: the thirteen
integer fields are coerced through safe_int in source order (the first
coercion that raises aborts the batch), and mp is parsed through
parse_minutes only when it is a string. -/
def extractStats (p : Player) : Except PyErr Stats := do
  let pts ← safe_int (p.pts.getD (.int 0)) 0
  let trb ← safe_int (p.trb.getD (.int 0)) 0
  let ast ← safe_int (p.ast.getD (.int 0)) 0
  let stl ← safe_int (p.stl.getD (.int 0)) 0
  let blk ← safe_int (p.blk.getD (.int 0)) 0
  let fg3 ← safe_int (p.fg3.getD (.int 0)) 0
  let fg3a ← safe_int (p.fg3a.getD (.int 0)) 0
  let fg ← safe_int (p.fg.getD (.int 0)) 0
  let fga ← safe_int (p.fga.getD (.int 0)) 0
  let ft ← safe_int (p.ft.getD (.int 0)) 0
  let fta ← safe_int (p.fta.getD (.int 0)) 0
  let tov ← safe_int (p.tov.getD (.int 0)) 0
  let plus_minus ← safe_int (p.plus_minus.getD (.int 0)) 0
  let mpRaw := p.mp.getD (.int 0)
  let mp : PyVal := match mpRaw with
    | .str s => .float (parse_minutes (.str s))
    | v => v
  pure ⟨pts, trb, ast, stl, blk, fg3, fg3a, fg, fga, ft, fta, tov, plus_minus, mp⟩

/-- Builds the MilestoneEntry for one append: the base_entry fields from the
call context plus the category-specific milestone_type and detail
(date_yyyymmdd left to its dataclass default, then filled by
__post_init__). -/
def mkEntry (ctx : Ctx) (name player_id : PyVal) (s : Stats)
    (milestone_type detail : String) : MilestoneEntry :=
  MilestoneEntry.init milestone_type name player_id ctx.team ctx.opponent
    ctx.game_id ctx.date ctx.side s detail ""

/-- The MULTI-CATEGORY ACHIEVEMENTS block: seven independent checks, each
appending at most one entry, in source order. -/
def multiCatAppends (s : Stats) (mk : String → String → MilestoneEntry) :
    List (Cat × MilestoneEntry) :=
  (if is_quadruple_double s 10 then
    [(Cat.quadruple_doubles, mk "quadruple_double"
        ("Quadruple-double (" ++ get_double_double_categories s 10 ++ ")"))]
   else [])
  ++ (if is_triple_double s 10 then
    [(Cat.triple_doubles, mk "triple_double"
        ("Triple-double (" ++ get_double_double_categories s 10 ++ ")"))]
   else [])
  ++ (if is_double_double s 10 then
    [(Cat.double_doubles, mk "double_double"
        ("Double-double (" ++ get_double_double_categories s 10 ++ ")"))]
   else [])
  ++ (if is_near_triple_double s 10 8 then
    [(Cat.near_triple_doubles, mk "near_triple_double"
        ("Near triple-double (" ++ toString s.pts ++ "/" ++ toString s.trb
          ++ "/" ++ toString s.ast ++ ")"))]
   else [])
  ++ (if is_near_double_double s 10 8 then
    [(Cat.near_double_doubles, mk "near_double_double" "Near double-double")]
   else [])
  ++ (if is_five_by_five s 5 then
    [(Cat.five_by_fives, mk "five_by_five"
        ("5x5 (" ++ toString s.pts ++ "/" ++ toString s.trb ++ "/"
          ++ toString s.ast ++ "/" ++ toString s.stl ++ "/"
          ++ toString s.blk ++ ")"))]
   else [])
  ++ (if is_all_around_game s then
    [(Cat.all_around_games, mk "all_around_game"
        ("All-around (" ++ toString s.pts ++ "/" ++ toString s.trb ++ "/"
          ++ toString s.ast ++ "/" ++ toString s.stl ++ "/"
          ++ toString s.blk ++ ")"))]
   else [])

/-- The SCORING MILESTONES block: one if/elif ladder from 70 down to 20. -/
def scoringAppends (s : Stats) (mk : String → String → MilestoneEntry) :
    List (Cat × MilestoneEntry) :=
  let d := toString s.pts ++ " points"
  if 70 ≤ s.pts then [(Cat.seventy_point_games, mk "seventy_point_game" d)]
  else if 60 ≤ s.pts then [(Cat.sixty_point_games, mk "sixty_point_game" d)]
  else if 50 ≤ s.pts then [(Cat.fifty_point_games, mk "fifty_point_game" d)]
  else if 45 ≤ s.pts then [(Cat.forty_five_point_games, mk "forty_five_point_game" d)]
  else if 40 ≤ s.pts then [(Cat.forty_point_games, mk "forty_point_game" d)]
  else if 35 ≤ s.pts then [(Cat.thirty_five_point_games, mk "thirty_five_point_game" d)]
  else if 30 ≤ s.pts then [(Cat.thirty_point_games, mk "thirty_point_game" d)]
  else if 25 ≤ s.pts then [(Cat.twenty_five_point_games, mk "twenty_five_point_game" d)]
  else if 20 ≤ s.pts then [(Cat.twenty_point_games, mk "twenty_point_game" d)]
  else []

/-- The REBOUNDING MILESTONES block: one if/elif ladder 25, 20, 18, 15, 12,
10. -/
def reboundAppends (s : Stats) (mk : String → String → MilestoneEntry) :
    List (Cat × MilestoneEntry) :=
  let d := toString s.trb ++ " rebounds"
  if 25 ≤ s.trb then [(Cat.twenty_five_rebound_games, mk "twenty_five_rebound_game" d)]
  else if 20 ≤ s.trb then [(Cat.twenty_rebound_games, mk "twenty_rebound_game" d)]
  else if 18 ≤ s.trb then [(Cat.eighteen_rebound_games, mk "eighteen_rebound_game" d)]
  else if 15 ≤ s.trb then [(Cat.fifteen_rebound_games, mk "fifteen_rebound_game" d)]
  else if 12 ≤ s.trb then [(Cat.twelve_rebound_games, mk "twelve_rebound_game" d)]
  else if 10 ≤ s.trb then [(Cat.ten_rebound_games, mk "ten_rebound_game" d)]
  else []

/-- The ASSIST MILESTONES block: one if/elif ladder 20, 15, 12, 10. -/
def assistAppends (s : Stats) (mk : String → String → MilestoneEntry) :
    List (Cat × MilestoneEntry) :=
  let d := toString s.ast ++ " assists"
  if 20 ≤ s.ast then [(Cat.twenty_assist_games, mk "twenty_assist_game" d)]
  else if 15 ≤ s.ast then [(Cat.fifteen_assist_games, mk "fifteen_assist_game" d)]
  else if 12 ≤ s.ast then [(Cat.twelve_assist_games, mk "twelve_assist_game" d)]
  else if 10 ≤ s.ast then [(Cat.ten_assist_games, mk "ten_assist_game" d)]
  else []

/-- The STEAL MILESTONES block: one if/elif ladder 10, 7, 5, 4. -/
def stealAppends (s : Stats) (mk : String → String → MilestoneEntry) :
    List (Cat × MilestoneEntry) :=
  let d := toString s.stl ++ " steals"
  if 10 ≤ s.stl then [(Cat.ten_steal_games, mk "ten_steal_game" d)]
  else if 7 ≤ s.stl then [(Cat.seven_steal_games, mk "seven_steal_game" d)]
  else if 5 ≤ s.stl then [(Cat.five_steal_games, mk "five_steal_game" d)]
  else if 4 ≤ s.stl then [(Cat.four_steal_games, mk "four_steal_game" d)]
  else []

/-- The BLOCK MILESTONES block: one if/elif ladder 10, 7, 5, 4. -/
def blockAppends (s : Stats) (mk : String → String → MilestoneEntry) :
    List (Cat × MilestoneEntry) :=
  let d := toString s.blk ++ " blocks"
  if 10 ≤ s.blk then [(Cat.ten_block_games, mk "ten_block_game" d)]
  else if 7 ≤ s.blk then [(Cat.seven_block_games, mk "seven_block_game" d)]
  else if 5 ≤ s.blk then [(Cat.five_block_games, mk "five_block_game" d)]
  else if 4 ≤ s.blk then [(Cat.four_block_games, mk "four_block_game" d)]
  else []

/-- The THREE-POINTER MILESTONES block: one if/elif ladder 10, 8, 7, 6, 5
followed by the independent perfect-from-three check. -/
def threeAppends (s : Stats) (mk : String → String → MilestoneEntry) :
    List (Cat × MilestoneEntry) :=
  let d := toString s.fg3 ++ " three-pointers"
  (if 10 ≤ s.fg3 then [(Cat.ten_three_games, mk "ten_three_game" d)]
   else if 8 ≤ s.fg3 then [(Cat.eight_three_games, mk "eight_three_game" d)]
   else if 7 ≤ s.fg3 then [(Cat.seven_three_games, mk "seven_three_game" d)]
   else if 6 ≤ s.fg3 then [(Cat.six_three_games, mk "six_three_game" d)]
   else if 5 ≤ s.fg3 then [(Cat.five_three_games, mk "five_three_game" d)]
   else [])
  ++ (if is_perfect_from_three s 4 then
    [(Cat.perfect_from_three, mk "perfect_from_three"
        (toString s.fg3 ++ "/" ++ toString s.fg3a ++ " from three (100%)"))]
   else [])

/-- The EFFICIENCY MILESTONES block: five independent checks (hot shooting,
perfect FT, perfect FG, efficient scoring, high game score). -/
def efficiencyAppends (s : Stats) (mk : String → String → MilestoneEntry) :
    List (Cat × MilestoneEntry) :=
  (if is_hot_shooting s ⟨6, 10⟩ 10 then
    [(Cat.hot_shooting_games, mk "hot_shooting_game"
        (toString s.fg ++ "/" ++ toString s.fga ++ " FG ("
          ++ (if 0 < s.fga then
                fmtF1 ((((Frac.ofInt s.fg).div (Frac.ofInt s.fga)).mul
                  (Frac.ofInt 100)).pyRound 1)
              else "0") ++ "%)"))]
   else [])
  ++ (if is_perfect_ft s 5 then
    [(Cat.perfect_ft_games, mk "perfect_ft_game"
        (toString s.ft ++ "/" ++ toString s.fta ++ " FT (100%)"))]
   else [])
  ++ (if is_perfect_fg s 5 then
    [(Cat.perfect_fg_games, mk "perfect_fg_game"
        (toString s.fg ++ "/" ++ toString s.fga ++ " FG (100%)"))]
   else [])
  ++ (if is_efficient_scoring s ⟨65, 100⟩ 15 then
    [(Cat.efficient_scoring_games, mk "efficient_scoring_game"
        (toString s.pts ++ " points on "
          ++ (match calculate_true_shooting s.pts s.fga s.fta with
              | some ts =>
                  if ts.isZero then "0"
                  else fmtF1 ((ts.mul (Frac.ofInt 100)).pyRound 1)
              | Option.none => "0") ++ "% TS"))]
   else [])
  ++ (if Frac.le (Frac.ofInt 35) (calculate_game_score s) then
    [(Cat.high_game_score, mk "high_game_score"
        ("Game Score: " ++ fmtF1 (calculate_game_score s)))]
   else [])

/-- The COMBINED MILESTONES block: the 30-10 / 25-10 / 20-10 if/elif ladder,
then three independent checks. -/
def combinedAppends (s : Stats) (mk : String → String → MilestoneEntry) :
    List (Cat × MilestoneEntry) :=
  let d := toString s.pts ++ " pts, " ++ toString s.trb ++ " reb, "
    ++ toString s.ast ++ " ast"
  (if 30 ≤ s.pts ∧ (10 ≤ s.trb ∨ 10 ≤ s.ast) then
    [(Cat.thirty_ten_games, mk "thirty_ten_game" d)]
   else if 25 ≤ s.pts ∧ (10 ≤ s.trb ∨ 10 ≤ s.ast) then
    [(Cat.twenty_five_ten_games, mk "twenty_five_ten_game" d)]
   else if 20 ≤ s.pts ∧ (10 ≤ s.trb ∨ 10 ≤ s.ast) then
    [(Cat.twenty_ten_games, mk "twenty_ten_game" d)]
   else [])
  ++ (if 20 ≤ s.pts ∧ 10 ≤ s.trb ∧ 5 ≤ s.ast then
    [(Cat.twenty_ten_five_games, mk "twenty_ten_five_game" d)]
   else [])
  ++ (if 20 ≤ s.pts ∧ 20 ≤ s.trb then
    [(Cat.twenty_twenty_games, mk "twenty_twenty_game"
        (toString s.pts ++ " points, " ++ toString s.trb ++ " rebounds"))]
   else [])
  ++ (if 10 ≤ s.pts ∧ 10 ≤ s.ast ∧ s.trb < 10 then
    [(Cat.points_assists_double_double, mk "points_assists_double_double"
        (toString s.pts ++ " pts, " ++ toString s.ast ++ " ast"))]
   else [])

/-- The DEFENSIVE MILESTONES block. -/
def defensiveAppends (s : Stats) (mk : String → String → MilestoneEntry) :
    List (Cat × MilestoneEntry) :=
  if is_defensive_monster s 7 then
    [(Cat.defensive_monster_games, mk "defensive_monster_game"
        (toString s.stl ++ " steals, " ++ toString s.blk ++ " blocks"))]
  else []

/-- The CLEAN GAMES block, taking the already-evaluated (fallible)
is_zero_turnover_game result. -/
def zeroTurnoverAppends (zt : Bool) (s : Stats)
    (mk : String → String → MilestoneEntry) : List (Cat × MilestoneEntry) :=
  if zt then
    [(Cat.zero_turnover_games, mk "zero_turnover_game"
        ("0 turnovers in " ++ fmtF0 s.mp ++ " minutes"))]
  else []

/-- The PLUS/MINUS MILESTONES block: the +25 / +20 if/elif ladder and the
independent -25 check. -/
def plusMinusAppends (s : Stats) (mk : String → String → MilestoneEntry) :
    List (Cat × MilestoneEntry) :=
  (if 25 ≤ s.plus_minus then
    [(Cat.plus_25_games, mk "plus_25_game" ("+" ++ toString s.plus_minus))]
   else if 20 ≤ s.plus_minus then
    [(Cat.plus_20_games, mk "plus_20_game" ("+" ++ toString s.plus_minus))]
   else [])
  ++ (if s.plus_minus ≤ -25 then
    [(Cat.minus_25_games, mk "minus_25_game" (toString s.plus_minus))]
   else [])

/-- _check_player_milestones for one player, as the ordered sequence of
(category, entry) appends it performs, or the exception it raises.  The
fallible steps are the safe_int coercions and the is_zero_turnover_game
check; on the error path the source leaves earlier appends in the mutable
results but process_games re-raises and returns nothing, so the appends list
models the contribution to the returned results. -/
def playerAppends (s : Stats) (mk : String → String → MilestoneEntry)
    (zt : Bool) : List (Cat × MilestoneEntry) :=
  multiCatAppends s mk ++ scoringAppends s mk ++ reboundAppends s mk
    ++ assistAppends s mk ++ stealAppends s mk ++ blockAppends s mk
    ++ threeAppends s mk ++ efficiencyAppends s mk ++ combinedAppends s mk
    ++ defensiveAppends s mk ++ zeroTurnoverAppends zt s mk
    ++ plusMinusAppends s mk

/-- _check_player_milestones for one player: stat extraction, then the
twelve blocks in source order, with the fallible is_zero_turnover_game check
threaded through.  On the error path the source leaves earlier appends in
the mutable results but process_games re-raises and returns nothing, so the
appends list models the contribution to the returned results. -/
def checkPlayer (ctx : Ctx) (p : Player) : Except PyErr (List (Cat × MilestoneEntry)) :=
  let name := p.name.getD (.str "")
  let player_id := p.player_id.getD (.str "")
  match extractStats p with
  | .error e => .error e
  | .ok s =>
      let mk := mkEntry ctx name player_id s
      match is_zero_turnover_game s ⟨20, 1⟩ with
      | .error e => .error e
      | .ok zt => .ok (playerAppends s mk zt)

/-- Sequencing of a fallible step over a list in order, stopping at the
first exception (the semantics of the source for loops over rosters and
games). -/
def mapE (f : α → Except PyErr β) : List α → Except PyErr (List β)
  | [] => .ok []
  | x :: xs =>
      match f x with
      | .error e => .error e
      | .ok y =>
          match mapE f xs with
          | .error e => .error e
          | .ok ys => .ok (y :: ys)

/-- The _check_player_milestones call context for one side of a game: team
and opponent from basic_info, with the away side processed first. -/
def sideCtx (g : Game) (side : Side) : Ctx :=
  let game_id := g.game_id.getD ""
  let date := match g.basic_info with
    | some bi => bi.date.getD (bi.date_yyyymmdd.getD "")
    | Option.none => ""
  let home_team := (g.basic_info.bind (fun bi => bi.home_team)).getD ""
  let away_team := (g.basic_info.bind (fun bi => bi.away_team)).getD ""
  match side with
  | .away => ⟨away_team, home_team, game_id, date, "away"⟩
  | .home => ⟨home_team, away_team, game_id, date, "home"⟩

/-- _process_game: header fields with dict.get defaults, then the away
roster processed in roster order, then the home roster, yielding the game's
append sequence. -/
def gameAppends (g : Game) : Except PyErr (List (Cat × MilestoneEntry)) :=
  match mapE (checkPlayer (sideCtx g .away)) (get_players_for_side g.box_score .away) with
  | .error e => .error e
  | .ok awayLists =>
      match mapE (checkPlayer (sideCtx g .home)) (get_players_for_side g.box_score .home) with
      | .error e => .error e
      | .ok homeLists => .ok (awayLists.flatten ++ homeLists.flatten)

/-- MilestoneEngine.process_games: a fresh empty results object, the games
visited in the given order, every append applied in sequence, and the
results returned (or the first exception propagated). -/
def process_games (games : List Game) : Except PyErr MilestoneResults :=
  match mapE gameAppends games with
  | .error e => .error e
  | .ok ls => .ok (applyAppends ls.flatten emptyResults)

/-- Number of entries an append sequence sends to one category. -/
def countCat (l : List (Cat × MilestoneEntry)) (c : Cat) : ℕ :=
  (l.filter (fun p => decide (p.1 = c))).length

lemma countCat_append (a b : List (Cat × MilestoneEntry)) (c : Cat) :
    countCat (a ++ b) c = countCat a c + countCat b c := by
  simp [countCat, List.filter_append]

lemma countCat_ite_single (P : Prop) [Decidable P] (c₀ c : Cat)
    (e : MilestoneEntry) :
    countCat (if P then [(c₀, e)] else []) c
      = if P ∧ c₀ = c then 1 else 0 := by
  by_cases hP : P <;> by_cases hc : c₀ = c <;> simp [countCat, hP, hc]

lemma countCat_eq_zero_of_forall {l : List (Cat × MilestoneEntry)} {c : Cat}
    (h : ∀ x ∈ l, x.1 ≠ c) : countCat l c = 0 := by
  simp only [countCat, List.length_eq_zero, List.filter_eq_nil_iff]
  intro x hx
  simpa using h x hx

lemma countCat_zero_of_sub {l : List (Cat × MilestoneEntry)}
    {cats : List Cat} {c : Cat} (hsub : ∀ x ∈ l, x.1 ∈ cats)
    (hc : c ∉ cats) : countCat l c = 0 :=
  countCat_eq_zero_of_forall (fun x hx heq => hc (heq ▸ hsub x hx))

lemma applyAppends_apply (l : List (Cat × MilestoneEntry))
    (r : MilestoneResults) (c : Cat) :
    applyAppends l r c
      = r c ++ (l.filter (fun p => decide (p.1 = c))).map (fun p => p.2) := by
  induction l generalizing r with
  | nil => simp [applyAppends]
  | cons x t ih =>
      show applyAppends t (appendEntry r x.1 x.2) c = _
      rw [ih]
      by_cases hc : x.1 = c
      · subst hc
        simp [appendEntry, List.filter_cons]
      · have hc2 : ¬ c = x.1 := fun h => hc h.symm
        simp [appendEntry, List.filter_cons, hc, hc2]

lemma applyAppends_length (l : List (Cat × MilestoneEntry))
    (r : MilestoneResults) (c : Cat) :
    (applyAppends l r c).length = (r c).length + countCat l c := by
  rw [applyAppends_apply]
  simp [countCat]

/-- A stat record with every field zero (an integer zero mp). -/
def zeroStats : Stats := ⟨0, 0, 0, 0, 0, 0, 0, 0, 0, 0, 0, 0, 0, PyVal.int 0⟩

/-- A player mapping whose only present key is mp, holding None. -/
def noneMpPlayer : Player := { emptyPlayer with mp := some PyVal.none }

/-- A game whose away roster is the single noneMpPlayer. -/
def noneMpGame : Game :=
  ⟨some "202401150LAL", Option.none,
    some ⟨some ⟨some [noneMpPlayer], Option.none⟩, Option.none⟩⟩

/-- C8: to_dict() on a freshly constructed result set lists every one of the
56 statically known category keys, each mapped to the empty list. -/
theorem to_dict_fresh_contains_all_categories :
    (∀ c : Cat, (catKey c, ([] : List MilestoneEntry)) ∈ to_dict emptyResults)
      ∧ (to_dict emptyResults).length = 56 := by
  constructor
  · decide
  · decide

/-- C9: a MilestoneEntry constructed without an explicit date_yyyymmdd (the
dataclass default empty string) derives it at construction as the first 8
characters of game_id whenever game_id has at least 8 characters. -/
theorem date_yyyymmdd_derived_from_game_id
    (milestone_type : String) (player player_id : PyVal)
    (team opponent game_id date side : String) (stats : Stats)
    (detail : String) (h : 8 ≤ game_id.length) :
    (MilestoneEntry.init milestone_type player player_id team opponent
        game_id date side stats detail "").date_yyyymmdd
      = strTake game_id 8 := by
  have hne : game_id ≠ "" := by
    intro hgid
    rw [hgid] at h
    exact absurd h (by decide)
  unfold MilestoneEntry.init
  rw [if_pos ⟨rfl, hne, h⟩]

/-- C9 witness: game_id "202401150LAL" yields date_yyyymmdd "20240115". -/
theorem date_yyyymmdd_derived_from_game_id_witness :
    (MilestoneEntry.init "triple_double" (.str "LeBron James") (.str "jamesle01")
        "LAL" "BOS" "202401150LAL" "2024-01-15" "away" zeroStats "d"
        "").date_yyyymmdd = "20240115" :=
  (date_yyyymmdd_derived_from_game_id "triple_double" (.str "LeBron James")
    (.str "jamesle01") "LAL" "BOS" "202401150LAL" "2024-01-15" "away"
    zeroStats "d" (by decide)).trans (by decide)

/-- C3 (code bug): a player record whose mp field holds None makes the
classification raise a TypeError: the engine only routes strings through
parse_minutes, so is_zero_turnover_game reaches the comparison
None >= 20.0 once tov coerces to 0, and the whole batch fails. -/
theorem classification_raises_on_none_mp :
    is_zero_turnover_game { zeroStats with mp := PyVal.none } ⟨20, 1⟩
        = .error PyErr.typeError
      ∧ checkPlayer ⟨"", "", "", "", ""⟩ noneMpPlayer
        = .error PyErr.typeError
      ∧ process_games [noneMpGame] = .error PyErr.typeError :=
  ⟨rfl, rfl, rfl⟩

/-- C6 (code bug): safe_int on the string "inf" raises an uncaught
OverflowError (int(float("inf")) overflows and the except clause catches
only ValueError and AttributeError), while the documented paths behave as
specified: "12.0" truncates to 12, None falls back to the default, an
unparseable string falls back to the default, and a finite float truncates
toward zero. -/
theorem safe_int_raises_on_infinite_string :
    safe_int (.str "inf") 0 = .error PyErr.overflowError
      ∧ safe_int (.str "12.0") 0 = .ok 12
      ∧ safe_int (.str "not a number") 0 = .ok 0
      ∧ safe_int PyVal.none 5 = .ok 5
      ∧ safe_int (.float (.finite ⟨-27, 10⟩)) 0 = .ok (-2) :=
  ⟨rfl, rfl, rfl, rfl, rfl⟩

/-- C4: the near-triple-double rule fires if and only if exactly two base
categories are at or above 10 and at least one sits in the 8-9 band; in
particular it is false whenever three or more categories reach 10. -/
theorem near_triple_double_iff (s : Stats) :
    (is_near_triple_double s 10 8 = true
        ↔ countAtLeast s 10 = 2 ∧ 1 ≤ countNear s 10 8)
      ∧ (3 ≤ countAtLeast s 10 → is_near_triple_double s 10 8 = false) := by
  unfold is_near_triple_double
  dsimp only
  constructor
  · split
    · rename_i h3
      simp only [Bool.false_eq_true, false_iff]
      rintro ⟨h2, -⟩
      omega
    · simp [Bool.and_eq_true, decide_eq_true_eq]
  · intro h3
    split
    · rfl
    · rename_i h
      exact absurd h3 h

/-- A stat line with three categories in double digits (an actual
triple-double). -/
def tripleTenStats : Stats := { zeroStats with pts := 12, trb := 11, ast := 10 }

/-- C4 witness: an actual triple-double (12/11/10) does not fire the
near-triple-double rule. -/
theorem near_triple_double_iff_witness :
    is_near_triple_double tripleTenStats 10 8 = false :=
  (near_triple_double_iff tripleTenStats).2 (by decide)

lemma checkPlayer_ok_decomp {ctx : Ctx} {p : Player} {s : Stats}
    {l : List (Cat × MilestoneEntry)}
    (hs : extractStats p = .ok s) (hc : checkPlayer ctx p = .ok l) :
    ∃ zt : Bool, is_zero_turnover_game s ⟨20, 1⟩ = .ok zt ∧
      l = playerAppends s
            (mkEntry ctx (p.name.getD (.str "")) (p.player_id.getD (.str "")) s)
            zt := by
  unfold checkPlayer at hc
  rw [hs] at hc
  dsimp only at hc
  cases hzt : is_zero_turnover_game s ⟨20, 1⟩ with
  | error e => rw [hzt] at hc; simp at hc
  | ok zt =>
      rw [hzt] at hc
      simp only [Except.ok.injEq] at hc
      exact ⟨zt, rfl, hc.symm⟩

lemma cats_append {l₁ l₂ : List (Cat × MilestoneEntry)} {cats : List Cat}
    (h₁ : ∀ x ∈ l₁, x.1 ∈ cats) (h₂ : ∀ x ∈ l₂, x.1 ∈ cats) :
    ∀ x ∈ l₁ ++ l₂, x.1 ∈ cats := by
  intro x hx
  rcases List.mem_append.1 hx with h | h
  exacts [h₁ x h, h₂ x h]

lemma cats_ite {P : Prop} [Decidable P] {l₁ l₂ : List (Cat × MilestoneEntry)}
    {cats : List Cat} (h₁ : ∀ x ∈ l₁, x.1 ∈ cats)
    (h₂ : ∀ x ∈ l₂, x.1 ∈ cats) : ∀ x ∈ (if P then l₁ else l₂), x.1 ∈ cats := by
  split
  exacts [h₁, h₂]

lemma cats_single {c₀ : Cat} {e : MilestoneEntry} {cats : List Cat}
    (h : c₀ ∈ cats) : ∀ x ∈ [(c₀, e)], x.1 ∈ cats := by
  intro x hx
  simp only [List.mem_singleton] at hx
  subst hx
  exact h

lemma cats_nil {cats : List Cat} :
    ∀ x ∈ ([] : List (Cat × MilestoneEntry)), x.1 ∈ cats := by
  simp

lemma multiCat_cats (s : Stats) (mk : String → String → MilestoneEntry) :
    ∀ x ∈ multiCatAppends s mk,
      x.1 ∈ ([.quadruple_doubles, .triple_doubles, .double_doubles,
        .near_triple_doubles, .near_double_doubles, .five_by_fives,
        .all_around_games] : List Cat) := by
  unfold multiCatAppends
  repeat' first
  | apply cats_append
  | apply cats_ite
  | apply cats_nil
  | (apply cats_single ; decide)

lemma scoring_cats (s : Stats) (mk : String → String → MilestoneEntry) :
    ∀ x ∈ scoringAppends s mk,
      x.1 ∈ ([.seventy_point_games, .sixty_point_games, .fifty_point_games,
        .forty_five_point_games, .forty_point_games, .thirty_five_point_games,
        .thirty_point_games, .twenty_five_point_games,
        .twenty_point_games] : List Cat) := by
  unfold scoringAppends
  dsimp only
  repeat' first
  | apply cats_append
  | apply cats_ite
  | apply cats_nil
  | (apply cats_single ; decide)

lemma rebound_cats (s : Stats) (mk : String → String → MilestoneEntry) :
    ∀ x ∈ reboundAppends s mk,
      x.1 ∈ ([.twenty_five_rebound_games, .twenty_rebound_games,
        .eighteen_rebound_games, .fifteen_rebound_games, .twelve_rebound_games,
        .ten_rebound_games] : List Cat) := by
  unfold reboundAppends
  dsimp only
  repeat' first
  | apply cats_append
  | apply cats_ite
  | apply cats_nil
  | (apply cats_single ; decide)

lemma assist_cats (s : Stats) (mk : String → String → MilestoneEntry) :
    ∀ x ∈ assistAppends s mk,
      x.1 ∈ ([.twenty_assist_games, .fifteen_assist_games,
        .twelve_assist_games, .ten_assist_games] : List Cat) := by
  unfold assistAppends
  dsimp only
  repeat' first
  | apply cats_append
  | apply cats_ite
  | apply cats_nil
  | (apply cats_single ; decide)

lemma steal_cats (s : Stats) (mk : String → String → MilestoneEntry) :
    ∀ x ∈ stealAppends s mk,
      x.1 ∈ ([.ten_steal_games, .seven_steal_games, .five_steal_games,
        .four_steal_games] : List Cat) := by
  unfold stealAppends
  dsimp only
  repeat' first
  | apply cats_append
  | apply cats_ite
  | apply cats_nil
  | (apply cats_single ; decide)

lemma block_cats (s : Stats) (mk : String → String → MilestoneEntry) :
    ∀ x ∈ blockAppends s mk,
      x.1 ∈ ([.ten_block_games, .seven_block_games, .five_block_games,
        .four_block_games] : List Cat) := by
  unfold blockAppends
  dsimp only
  repeat' first
  | apply cats_append
  | apply cats_ite
  | apply cats_nil
  | (apply cats_single ; decide)

lemma three_cats (s : Stats) (mk : String → String → MilestoneEntry) :
    ∀ x ∈ threeAppends s mk,
      x.1 ∈ ([.ten_three_games, .eight_three_games, .seven_three_games,
        .six_three_games, .five_three_games, .perfect_from_three] : List Cat) := by
  unfold threeAppends
  dsimp only
  repeat' first
  | apply cats_append
  | apply cats_ite
  | apply cats_nil
  | (apply cats_single ; decide)

lemma efficiency_cats (s : Stats) (mk : String → String → MilestoneEntry) :
    ∀ x ∈ efficiencyAppends s mk,
      x.1 ∈ ([.hot_shooting_games, .perfect_ft_games, .perfect_fg_games,
        .efficient_scoring_games, .high_game_score] : List Cat) := by
  unfold efficiencyAppends
  repeat' first
  | apply cats_append
  | apply cats_ite
  | apply cats_nil
  | (apply cats_single ; decide)

lemma combined_cats (s : Stats) (mk : String → String → MilestoneEntry) :
    ∀ x ∈ combinedAppends s mk,
      x.1 ∈ ([.thirty_ten_games, .twenty_five_ten_games, .twenty_ten_games,
        .twenty_ten_five_games, .twenty_twenty_games,
        .points_assists_double_double] : List Cat) := by
  unfold combinedAppends
  dsimp only
  repeat' first
  | apply cats_append
  | apply cats_ite
  | apply cats_nil
  | (apply cats_single ; decide)

lemma defensive_cats (s : Stats) (mk : String → String → MilestoneEntry) :
    ∀ x ∈ defensiveAppends s mk,
      x.1 ∈ ([.defensive_monster_games] : List Cat) := by
  unfold defensiveAppends
  repeat' first
  | apply cats_append
  | apply cats_ite
  | apply cats_nil
  | (apply cats_single ; decide)

lemma zeroTurnover_cats (zt : Bool) (s : Stats)
    (mk : String → String → MilestoneEntry) :
    ∀ x ∈ zeroTurnoverAppends zt s mk,
      x.1 ∈ ([.zero_turnover_games] : List Cat) := by
  unfold zeroTurnoverAppends
  repeat' first
  | apply cats_append
  | apply cats_ite
  | apply cats_nil
  | (apply cats_single ; decide)

lemma plusMinus_cats (s : Stats) (mk : String → String → MilestoneEntry) :
    ∀ x ∈ plusMinusAppends s mk,
      x.1 ∈ ([.plus_25_games, .plus_20_games, .minus_25_games] : List Cat) := by
  unfold plusMinusAppends
  repeat' first
  | apply cats_append
  | apply cats_ite
  | apply cats_nil
  | (apply cats_single ; decide)

lemma countCat_player (s : Stats) (mk : String → String → MilestoneEntry)
    (zt : Bool) (c : Cat) :
    countCat (playerAppends s mk zt) c
      = countCat (multiCatAppends s mk) c + countCat (scoringAppends s mk) c
        + countCat (reboundAppends s mk) c + countCat (assistAppends s mk) c
        + countCat (stealAppends s mk) c + countCat (blockAppends s mk) c
        + countCat (threeAppends s mk) c + countCat (efficiencyAppends s mk) c
        + countCat (combinedAppends s mk) c + countCat (defensiveAppends s mk) c
        + countCat (zeroTurnoverAppends zt s mk) c
        + countCat (plusMinusAppends s mk) c := by
  unfold playerAppends
  repeat rw [countCat_append]

lemma countCat_nil (c : Cat) : countCat [] c = 0 := rfl

lemma countCat_cons (x : Cat × MilestoneEntry) (t : List (Cat × MilestoneEntry))
    (c : Cat) :
    countCat (x :: t) c = (if x.1 = c then 1 else 0) + countCat t c := by
  by_cases h : x.1 = c
  · simp [countCat, List.filter_cons, h]
    omega
  · simp [countCat, List.filter_cons, h]

lemma countCat_player_multi (s : Stats) (mk : String → String → MilestoneEntry)
    (zt : Bool) (c : Cat)
    (h : c ∈ ([.quadruple_doubles, .triple_doubles, .double_doubles,
      .near_triple_doubles, .near_double_doubles, .five_by_fives,
      .all_around_games] : List Cat)) :
    countCat (playerAppends s mk zt) c = countCat (multiCatAppends s mk) c := by
  rw [countCat_player]
  have z2 : countCat (scoringAppends s mk) c = 0 :=
    countCat_zero_of_sub (scoring_cats s mk) (by fin_cases h <;> decide)
  have z3 : countCat (reboundAppends s mk) c = 0 :=
    countCat_zero_of_sub (rebound_cats s mk) (by fin_cases h <;> decide)
  have z4 : countCat (assistAppends s mk) c = 0 :=
    countCat_zero_of_sub (assist_cats s mk) (by fin_cases h <;> decide)
  have z5 : countCat (stealAppends s mk) c = 0 :=
    countCat_zero_of_sub (steal_cats s mk) (by fin_cases h <;> decide)
  have z6 : countCat (blockAppends s mk) c = 0 :=
    countCat_zero_of_sub (block_cats s mk) (by fin_cases h <;> decide)
  have z7 : countCat (threeAppends s mk) c = 0 :=
    countCat_zero_of_sub (three_cats s mk) (by fin_cases h <;> decide)
  have z8 : countCat (efficiencyAppends s mk) c = 0 :=
    countCat_zero_of_sub (efficiency_cats s mk) (by fin_cases h <;> decide)
  have z9 : countCat (combinedAppends s mk) c = 0 :=
    countCat_zero_of_sub (combined_cats s mk) (by fin_cases h <;> decide)
  have z10 : countCat (defensiveAppends s mk) c = 0 :=
    countCat_zero_of_sub (defensive_cats s mk) (by fin_cases h <;> decide)
  have z11 : countCat (zeroTurnoverAppends zt s mk) c = 0 :=
    countCat_zero_of_sub (zeroTurnover_cats zt s mk) (by fin_cases h <;> decide)
  have z12 : countCat (plusMinusAppends s mk) c = 0 :=
    countCat_zero_of_sub (plusMinus_cats s mk) (by fin_cases h <;> decide)
  omega

lemma countCat_player_scoring (s : Stats) (mk : String → String → MilestoneEntry)
    (zt : Bool) (c : Cat)
    (h : c ∈ ([.seventy_point_games, .sixty_point_games, .fifty_point_games,
      .forty_five_point_games, .forty_point_games, .thirty_five_point_games,
      .thirty_point_games, .twenty_five_point_games,
      .twenty_point_games] : List Cat)) :
    countCat (playerAppends s mk zt) c = countCat (scoringAppends s mk) c := by
  rw [countCat_player]
  have z1 : countCat (multiCatAppends s mk) c = 0 :=
    countCat_zero_of_sub (multiCat_cats s mk) (by fin_cases h <;> decide)
  have z3 : countCat (reboundAppends s mk) c = 0 :=
    countCat_zero_of_sub (rebound_cats s mk) (by fin_cases h <;> decide)
  have z4 : countCat (assistAppends s mk) c = 0 :=
    countCat_zero_of_sub (assist_cats s mk) (by fin_cases h <;> decide)
  have z5 : countCat (stealAppends s mk) c = 0 :=
    countCat_zero_of_sub (steal_cats s mk) (by fin_cases h <;> decide)
  have z6 : countCat (blockAppends s mk) c = 0 :=
    countCat_zero_of_sub (block_cats s mk) (by fin_cases h <;> decide)
  have z7 : countCat (threeAppends s mk) c = 0 :=
    countCat_zero_of_sub (three_cats s mk) (by fin_cases h <;> decide)
  have z8 : countCat (efficiencyAppends s mk) c = 0 :=
    countCat_zero_of_sub (efficiency_cats s mk) (by fin_cases h <;> decide)
  have z9 : countCat (combinedAppends s mk) c = 0 :=
    countCat_zero_of_sub (combined_cats s mk) (by fin_cases h <;> decide)
  have z10 : countCat (defensiveAppends s mk) c = 0 :=
    countCat_zero_of_sub (defensive_cats s mk) (by fin_cases h <;> decide)
  have z11 : countCat (zeroTurnoverAppends zt s mk) c = 0 :=
    countCat_zero_of_sub (zeroTurnover_cats zt s mk) (by fin_cases h <;> decide)
  have z12 : countCat (plusMinusAppends s mk) c = 0 :=
    countCat_zero_of_sub (plusMinus_cats s mk) (by fin_cases h <;> decide)
  omega

/-- C1: a player-game whose coerced stats reach 10 in at least four of the
five base categories appends exactly one entry to each of quadruple_doubles,
triple_doubles and double_doubles: three simultaneous entries, not only the
highest tier. -/
theorem quadruple_double_records_all_three_tiers
    (ctx : Ctx) (p : Player) (s : Stats) (l : List (Cat × MilestoneEntry))
    (hs : extractStats p = .ok s) (hc : checkPlayer ctx p = .ok l)
    (h4 : 4 ≤ countAtLeast s 10) (r : MilestoneResults) :
    (applyAppends l r Cat.quadruple_doubles).length
        = (r Cat.quadruple_doubles).length + 1
      ∧ (applyAppends l r Cat.triple_doubles).length
        = (r Cat.triple_doubles).length + 1
      ∧ (applyAppends l r Cat.double_doubles).length
        = (r Cat.double_doubles).length + 1 := by
  obtain ⟨zt, hzt, hl⟩ := checkPlayer_ok_decomp hs hc
  have hq : is_quadruple_double s 10 = true := by
    simp only [is_quadruple_double, decide_eq_true_eq]
    exact h4
  have ht : is_triple_double s 10 = true := by
    simp only [is_triple_double, decide_eq_true_eq]
    omega
  have hd : is_double_double s 10 = true := by
    simp only [is_double_double, decide_eq_true_eq]
    omega
  refine ⟨?_, ?_, ?_⟩ <;>
    rw [hl, applyAppends_length, countCat_player_multi _ _ _ _ (by decide)] <;>
    simp [multiCatAppends, countCat_append, countCat_ite_single,
      countCat_cons, countCat_nil, hq, ht, hd]

/-- The claim C1 example player: 20 points, 15 rebounds, 12 assists,
10 steals, 5 blocks. -/
def qdPlayer : Player := { emptyPlayer with
  name := some (.str "Q D"),
  pts := some (.int 20), trb := some (.int 15), ast := some (.int 12),
  stl := some (.int 10), blk := some (.int 5) }

def demoCtx : Ctx := ⟨"LAL", "BOS", "202401150LAL", "2024-01-15", "away"⟩

def qdStats : Stats := (extractStats qdPlayer).toOption.getD zeroStats

def qdAppends : List (Cat × MilestoneEntry) :=
  (checkPlayer demoCtx qdPlayer).toOption.getD []

set_option maxHeartbeats 2000000 in
/-- C1 witness: the 20/15/12/10/5 player-game puts one entry in each of the
three double-family categories. -/
theorem quadruple_double_records_all_three_tiers_witness :
    (applyAppends qdAppends emptyResults Cat.quadruple_doubles).length
        = (emptyResults Cat.quadruple_doubles).length + 1
      ∧ (applyAppends qdAppends emptyResults Cat.triple_doubles).length
        = (emptyResults Cat.triple_doubles).length + 1
      ∧ (applyAppends qdAppends emptyResults Cat.double_doubles).length
        = (emptyResults Cat.double_doubles).length + 1 :=
  quadruple_double_records_all_three_tiers demoCtx qdPlayer qdStats qdAppends
    rfl rfl (by decide) emptyResults

/-- C10: for every coerced stat record, the all-around rule fires if and
only if all five base categories reach 5, or at least four of them reach 8;
consequently a 5x5 player-game receives both a five_by_fives entry and an
all_around_games entry. -/
theorem all_around_iff_and_five_by_five (s : Stats) :
    (is_all_around_game s = true
        ↔ ((∀ v ∈ catVals s, 5 ≤ v)
            ∨ 4 ≤ (catVals s).countP (fun v => decide (8 ≤ v))))
      ∧ (∀ (ctx : Ctx) (p : Player) (l : List (Cat × MilestoneEntry))
          (r : MilestoneResults),
          extractStats p = .ok s → checkPlayer ctx p = .ok l →
          is_five_by_five s 5 = true →
          (applyAppends l r Cat.five_by_fives).length
              = (r Cat.five_by_fives).length + 1
            ∧ (applyAppends l r Cat.all_around_games).length
              = (r Cat.all_around_games).length + 1) := by
  constructor
  · by_cases hx : ∀ v ∈ catVals s, 5 ≤ v
    · simp [is_all_around_game, List.all_eq_true, decide_eq_true_eq, hx]
    · simp [is_all_around_game, List.all_eq_true, decide_eq_true_eq, hx]
  · intro ctx p l r hs hc h5
    obtain ⟨zt, hzt, hl⟩ := checkPlayer_ok_decomp hs hc
    have h5' : (catVals s).all (fun v => decide (5 ≤ v)) = true := by
      simpa only [is_five_by_five] using h5
    have hall : is_all_around_game s = true := by
      simp [is_all_around_game, h5']
    refine ⟨?_, ?_⟩
    · rw [hl, applyAppends_length, countCat_player_multi _ _ _ _ (by decide)]
      simp [multiCatAppends, countCat_append, countCat_ite_single,
        countCat_cons, countCat_nil, h5]
    · rw [hl, applyAppends_length, countCat_player_multi _ _ _ _ (by decide)]
      simp [multiCatAppends, countCat_append, countCat_ite_single,
        countCat_cons, countCat_nil, hall]

/-- A 5x5 player: 10 points, 6 rebounds, 7 assists, 5 steals, 6 blocks. -/
def fiveFivePlayer : Player := { emptyPlayer with
  name := some (.str "Five By Five"),
  pts := some (.int 10), trb := some (.int 6), ast := some (.int 7),
  stl := some (.int 5), blk := some (.int 6) }

def fiveFiveStats : Stats := (extractStats fiveFivePlayer).toOption.getD zeroStats

def fiveFiveAppends : List (Cat × MilestoneEntry) :=
  (checkPlayer demoCtx fiveFivePlayer).toOption.getD []

/-- A stat line that is not a 5x5 but has four categories at 8 or more. -/
def eightsStats : Stats := { zeroStats with pts := 8, trb := 8, ast := 8, stl := 8 }

/-- A stat line with only three categories at 8 or more and a zero block
count, firing neither disjunct of the all-around rule. -/
def threeEightsStats : Stats := { zeroStats with pts := 8, trb := 8, ast := 8 }

set_option maxHeartbeats 2000000 in
/-- C10 witness: 8/8/8/8/0 fires the all-around rule through the
four-at-eight disjunct even though not every category reaches 5, 8/8/8/0/0
fires neither disjunct and the rule stays false, and the 10/6/7/5/6
player-game receives one five_by_fives entry and one all_around_games
entry. -/
theorem all_around_iff_and_five_by_five_witness :
    is_all_around_game eightsStats = true
      ∧ is_all_around_game threeEightsStats = false
      ∧ (applyAppends fiveFiveAppends emptyResults Cat.five_by_fives).length
        = (emptyResults Cat.five_by_fives).length + 1
      ∧ (applyAppends fiveFiveAppends emptyResults Cat.all_around_games).length
        = (emptyResults Cat.all_around_games).length + 1 := by
  refine ⟨?_, ?_, ?_, ?_⟩
  · exact (all_around_iff_and_five_by_five eightsStats).1.mpr (by decide)
  · cases hb : is_all_around_game threeEightsStats with
    | false => rfl
    | true =>
        exact absurd ((all_around_iff_and_five_by_five threeEightsStats).1.mp hb)
          (by decide)
  · exact ((all_around_iff_and_five_by_five fiveFiveStats).2 demoCtx
      fiveFivePlayer fiveFiveAppends emptyResults rfl rfl (by decide)).1
  · exact ((all_around_iff_and_five_by_five fiveFiveStats).2 demoCtx
      fiveFivePlayer fiveFiveAppends emptyResults rfl rfl (by decide)).2

lemma countCat_scoring_70 (s : Stats) (mk : String → String → MilestoneEntry) :
    countCat (scoringAppends s mk) Cat.seventy_point_games
      = if 70 ≤ s.pts then 1 else 0 := by
  unfold scoringAppends
  dsimp only
  repeat' split
  all_goals simp [countCat_cons, countCat_nil, countCat_append]
  all_goals (first | (split <;> omega) | omega | rfl)

lemma countCat_scoring_60 (s : Stats) (mk : String → String → MilestoneEntry) :
    countCat (scoringAppends s mk) Cat.sixty_point_games
      = if 60 ≤ s.pts ∧ s.pts < 70 then 1 else 0 := by
  unfold scoringAppends
  dsimp only
  repeat' split
  all_goals simp [countCat_cons, countCat_nil, countCat_append]
  all_goals (first | (split <;> omega) | omega | rfl)

lemma countCat_scoring_50 (s : Stats) (mk : String → String → MilestoneEntry) :
    countCat (scoringAppends s mk) Cat.fifty_point_games
      = if 50 ≤ s.pts ∧ s.pts < 60 then 1 else 0 := by
  unfold scoringAppends
  dsimp only
  repeat' split
  all_goals simp [countCat_cons, countCat_nil, countCat_append]
  all_goals (first | (split <;> omega) | omega | rfl)

lemma countCat_scoring_45 (s : Stats) (mk : String → String → MilestoneEntry) :
    countCat (scoringAppends s mk) Cat.forty_five_point_games
      = if 45 ≤ s.pts ∧ s.pts < 50 then 1 else 0 := by
  unfold scoringAppends
  dsimp only
  repeat' split
  all_goals simp [countCat_cons, countCat_nil, countCat_append]
  all_goals (first | (split <;> omega) | omega | rfl)

lemma countCat_scoring_40 (s : Stats) (mk : String → String → MilestoneEntry) :
    countCat (scoringAppends s mk) Cat.forty_point_games
      = if 40 ≤ s.pts ∧ s.pts < 45 then 1 else 0 := by
  unfold scoringAppends
  dsimp only
  repeat' split
  all_goals simp [countCat_cons, countCat_nil, countCat_append]
  all_goals (first | (split <;> omega) | omega | rfl)

lemma countCat_scoring_35 (s : Stats) (mk : String → String → MilestoneEntry) :
    countCat (scoringAppends s mk) Cat.thirty_five_point_games
      = if 35 ≤ s.pts ∧ s.pts < 40 then 1 else 0 := by
  unfold scoringAppends
  dsimp only
  repeat' split
  all_goals simp [countCat_cons, countCat_nil, countCat_append]
  all_goals (first | (split <;> omega) | omega | rfl)

lemma countCat_scoring_30 (s : Stats) (mk : String → String → MilestoneEntry) :
    countCat (scoringAppends s mk) Cat.thirty_point_games
      = if 30 ≤ s.pts ∧ s.pts < 35 then 1 else 0 := by
  unfold scoringAppends
  dsimp only
  repeat' split
  all_goals simp [countCat_cons, countCat_nil, countCat_append]
  all_goals (first | (split <;> omega) | omega | rfl)

lemma countCat_scoring_25 (s : Stats) (mk : String → String → MilestoneEntry) :
    countCat (scoringAppends s mk) Cat.twenty_five_point_games
      = if 25 ≤ s.pts ∧ s.pts < 30 then 1 else 0 := by
  unfold scoringAppends
  dsimp only
  repeat' split
  all_goals simp [countCat_cons, countCat_nil, countCat_append]
  all_goals (first | (split <;> omega) | omega | rfl)

lemma countCat_scoring_20 (s : Stats) (mk : String → String → MilestoneEntry) :
    countCat (scoringAppends s mk) Cat.twenty_point_games
      = if 20 ≤ s.pts ∧ s.pts < 25 then 1 else 0 := by
  unfold scoringAppends
  dsimp only
  repeat' split
  all_goals simp [countCat_cons, countCat_nil, countCat_append]
  all_goals (first | (split <;> omega) | omega | rfl)

/-- C2: the scoring ladder is exclusive.  Each scoring category receives an
entry for a player-game exactly when pts meets its threshold and no higher
threshold is met, so the highest met tier receives exactly one entry and
every other scoring tier (in particular every lower one) receives none; for
45 <= pts < 50 the sole scoring entry lands in forty_five_point_games. -/
theorem scoring_ladder_exclusive
    (ctx : Ctx) (p : Player) (s : Stats) (l : List (Cat × MilestoneEntry))
    (hs : extractStats p = .ok s) (hc : checkPlayer ctx p = .ok l)
    (r : MilestoneResults) :
    (applyAppends l r Cat.seventy_point_games).length
        = (r Cat.seventy_point_games).length + (if 70 ≤ s.pts then 1 else 0)
      ∧ (applyAppends l r Cat.sixty_point_games).length
        = (r Cat.sixty_point_games).length
          + (if 60 ≤ s.pts ∧ s.pts < 70 then 1 else 0)
      ∧ (applyAppends l r Cat.fifty_point_games).length
        = (r Cat.fifty_point_games).length
          + (if 50 ≤ s.pts ∧ s.pts < 60 then 1 else 0)
      ∧ (applyAppends l r Cat.forty_five_point_games).length
        = (r Cat.forty_five_point_games).length
          + (if 45 ≤ s.pts ∧ s.pts < 50 then 1 else 0)
      ∧ (applyAppends l r Cat.forty_point_games).length
        = (r Cat.forty_point_games).length
          + (if 40 ≤ s.pts ∧ s.pts < 45 then 1 else 0)
      ∧ (applyAppends l r Cat.thirty_five_point_games).length
        = (r Cat.thirty_five_point_games).length
          + (if 35 ≤ s.pts ∧ s.pts < 40 then 1 else 0)
      ∧ (applyAppends l r Cat.thirty_point_games).length
        = (r Cat.thirty_point_games).length
          + (if 30 ≤ s.pts ∧ s.pts < 35 then 1 else 0)
      ∧ (applyAppends l r Cat.twenty_five_point_games).length
        = (r Cat.twenty_five_point_games).length
          + (if 25 ≤ s.pts ∧ s.pts < 30 then 1 else 0)
      ∧ (applyAppends l r Cat.twenty_point_games).length
        = (r Cat.twenty_point_games).length
          + (if 20 ≤ s.pts ∧ s.pts < 25 then 1 else 0) := by
  obtain ⟨zt, hzt, hl⟩ := checkPlayer_ok_decomp hs hc
  refine ⟨?_, ?_, ?_, ?_, ?_, ?_, ?_, ?_, ?_⟩ <;>
    rw [hl, applyAppends_length, countCat_player_scoring _ _ _ _ (by decide)]
  · rw [countCat_scoring_70]
  · rw [countCat_scoring_60]
  · rw [countCat_scoring_50]
  · rw [countCat_scoring_45]
  · rw [countCat_scoring_40]
  · rw [countCat_scoring_35]
  · rw [countCat_scoring_30]
  · rw [countCat_scoring_25]
  · rw [countCat_scoring_20]

/-- A player with 45 points and nothing else. -/
def fortyFivePlayer : Player := { emptyPlayer with
  name := some (.str "Scorer"), pts := some (.int 45) }

def fortyFiveStats : Stats := (extractStats fortyFivePlayer).toOption.getD zeroStats

def fortyFiveAppends : List (Cat × MilestoneEntry) :=
  (checkPlayer demoCtx fortyFivePlayer).toOption.getD []

set_option maxHeartbeats 2000000 in
/-- C2 witness: a 45-point game puts exactly one entry in
forty_five_point_games and none in any other scoring category. -/
theorem scoring_ladder_exclusive_witness :
    (applyAppends fortyFiveAppends emptyResults Cat.seventy_point_games).length
        = (emptyResults Cat.seventy_point_games).length
          + (if 70 ≤ fortyFiveStats.pts then 1 else 0)
      ∧ (applyAppends fortyFiveAppends emptyResults Cat.sixty_point_games).length
        = (emptyResults Cat.sixty_point_games).length
          + (if 60 ≤ fortyFiveStats.pts ∧ fortyFiveStats.pts < 70 then 1 else 0)
      ∧ (applyAppends fortyFiveAppends emptyResults Cat.fifty_point_games).length
        = (emptyResults Cat.fifty_point_games).length
          + (if 50 ≤ fortyFiveStats.pts ∧ fortyFiveStats.pts < 60 then 1 else 0)
      ∧ (applyAppends fortyFiveAppends emptyResults Cat.forty_five_point_games).length
        = (emptyResults Cat.forty_five_point_games).length
          + (if 45 ≤ fortyFiveStats.pts ∧ fortyFiveStats.pts < 50 then 1 else 0)
      ∧ (applyAppends fortyFiveAppends emptyResults Cat.forty_point_games).length
        = (emptyResults Cat.forty_point_games).length
          + (if 40 ≤ fortyFiveStats.pts ∧ fortyFiveStats.pts < 45 then 1 else 0)
      ∧ (applyAppends fortyFiveAppends emptyResults Cat.thirty_five_point_games).length
        = (emptyResults Cat.thirty_five_point_games).length
          + (if 35 ≤ fortyFiveStats.pts ∧ fortyFiveStats.pts < 40 then 1 else 0)
      ∧ (applyAppends fortyFiveAppends emptyResults Cat.thirty_point_games).length
        = (emptyResults Cat.thirty_point_games).length
          + (if 30 ≤ fortyFiveStats.pts ∧ fortyFiveStats.pts < 35 then 1 else 0)
      ∧ (applyAppends fortyFiveAppends emptyResults Cat.twenty_five_point_games).length
        = (emptyResults Cat.twenty_five_point_games).length
          + (if 25 ≤ fortyFiveStats.pts ∧ fortyFiveStats.pts < 30 then 1 else 0)
      ∧ (applyAppends fortyFiveAppends emptyResults Cat.twenty_point_games).length
        = (emptyResults Cat.twenty_point_games).length
          + (if 20 ≤ fortyFiveStats.pts ∧ fortyFiveStats.pts < 25 then 1 else 0) :=
  scoring_ladder_exclusive demoCtx fortyFivePlayer fortyFiveStats
    fortyFiveAppends rfl rfl emptyResults

/-- C7: roster resolution prefers a present non-empty players list, falls
back to the basic list otherwise, and a side with neither key (or no section
at all) resolves to the empty roster, so that side contributes zero entries
and no error to a processed game. -/
theorem roster_resolution_fallback :
    (∀ (sd : SideData) (ps : List Player) (bs : Option BoxScore) (side : Side),
        sideLookup bs side = some sd → sd.players = some ps → ps ≠ [] →
        get_players_for_side bs side = ps)
      ∧ (∀ (sd : SideData) (bs : Option BoxScore) (side : Side),
        sideLookup bs side = some sd →
        (sd.players = Option.none ∨ sd.players = some []) →
        get_players_for_side bs side = sd.basic.getD [])
      ∧ (∀ (bs : Option BoxScore) (side : Side),
        (sideLookup bs side = Option.none
          ∨ sideLookup bs side = some ⟨Option.none, Option.none⟩) →
        get_players_for_side bs side = [])
      ∧ (∀ g : Game,
        get_players_for_side g.box_score .away = [] →
        get_players_for_side g.box_score .home = [] →
        gameAppends g = .ok []) := by
  refine ⟨?_, ?_, ?_, ?_⟩
  · intro sd ps bs side h1 h2 h3
    simp [get_players_for_side, h1, h2, List.isEmpty_iff, h3]
  · intro sd bs side h1 h2
    rcases h2 with h2 | h2 <;> simp [get_players_for_side, h1, h2]
  · intro bs side h
    rcases h with h | h <;> simp [get_players_for_side, h]
  · intro g h1 h2
    simp [gameAppends, h1, h2, mapE]

/-- A game whose box_score sections carry neither a players nor a basic
key. -/
def keylessGame : Game :=
  ⟨some "202402030NYK", Option.none,
    some ⟨some ⟨Option.none, Option.none⟩, some ⟨Option.none, Option.none⟩⟩⟩

/-- C7 witness: a non-empty players list wins, and the keyless game yields
zero entries and no error. -/
theorem roster_resolution_fallback_witness :
    get_players_for_side
        (some ⟨some ⟨some [qdPlayer], some [fiveFivePlayer]⟩, Option.none⟩)
        Side.away = [qdPlayer]
      ∧ gameAppends keylessGame = .ok [] :=
  ⟨roster_resolution_fallback.1 ⟨some [qdPlayer], some [fiveFivePlayer]⟩
      [qdPlayer] _ Side.away rfl rfl (by simp),
    roster_resolution_fallback.2.2.2 keylessGame rfl rfl⟩

/-- The entries a single player-game sends to one category, in append order
(empty when the player would raise). -/
def playerContrib (c : Cat) (ctx : Ctx) (p : Player) : List MilestoneEntry :=
  match checkPlayer ctx p with
  | .ok l => (l.filter (fun q => decide (q.1 = c))).map (fun q => q.2)
  | .error _ => []

/-- The entries one side of a game sends to one category: its resolved
roster in roster-list order, each player's entries in sequence. -/
def sideContrib (c : Cat) (g : Game) (side : Side) : List MilestoneEntry :=
  ((get_players_for_side g.box_score side).map
    (playerContrib c (sideCtx g side))).flatten

/-- The entries one game sends to one category: the away side strictly
before the home side. -/
def gameContrib (c : Cat) (g : Game) : List MilestoneEntry :=
  sideContrib c g .away ++ sideContrib c g .home

lemma mapE_ok_nil {f : α → Except PyErr β} {ys : List β}
    (h : mapE f [] = .ok ys) : ys = [] := by
  simpa [mapE] using h.symm

lemma mapE_ok_cons {f : α → Except PyErr β} {x : α} {xs : List α} {ys : List β}
    (h : mapE f (x :: xs) = .ok ys) :
    ∃ y ys', f x = .ok y ∧ mapE f xs = .ok ys' ∧ ys = y :: ys' := by
  unfold mapE at h
  cases hx : f x with
  | error e => rw [hx] at h; simp at h
  | ok y =>
      rw [hx] at h
      dsimp only at h
      cases hxs : mapE f xs with
      | error e => rw [hxs] at h; simp at h
      | ok ys' =>
          rw [hxs] at h
          simp only [Except.ok.injEq] at h
          exact ⟨y, ys', rfl, rfl, h.symm⟩

lemma sideContrib_of_mapE {c : Cat} {ctx : Ctx} {roster : List Player}
    {ls : List (List (Cat × MilestoneEntry))}
    (h : mapE (checkPlayer ctx) roster = .ok ls) :
    (ls.flatten.filter (fun q => decide (q.1 = c))).map (fun q => q.2)
      = (roster.map (playerContrib c ctx)).flatten := by
  induction roster generalizing ls with
  | nil => rw [mapE_ok_nil h]; simp
  | cons p rest ih =>
      obtain ⟨y, ys', hp, hrest, hys⟩ := mapE_ok_cons h
      subst hys
      simp only [List.flatten_cons, List.filter_append, List.map_append,
        List.map_cons]
      rw [ih hrest]
      simp [playerContrib, hp]

lemma gameContrib_of_gameAppends {c : Cat} {g : Game}
    {L : List (Cat × MilestoneEntry)} (h : gameAppends g = .ok L) :
    (L.filter (fun q => decide (q.1 = c))).map (fun q => q.2)
      = gameContrib c g := by
  unfold gameAppends at h
  cases ha : mapE (checkPlayer (sideCtx g .away))
      (get_players_for_side g.box_score .away) with
  | error e => rw [ha] at h; simp at h
  | ok aL =>
      rw [ha] at h
      dsimp only at h
      cases hh : mapE (checkPlayer (sideCtx g .home))
          (get_players_for_side g.box_score .home) with
      | error e => rw [hh] at h; simp at h
      | ok hL =>
          rw [hh] at h
          simp only [Except.ok.injEq] at h
          subst h
          unfold gameContrib sideContrib
          simp only [List.filter_append, List.map_append]
          rw [sideContrib_of_mapE ha, sideContrib_of_mapE hh]

lemma gamesContrib_of_mapE {c : Cat} {games : List Game}
    {ls : List (List (Cat × MilestoneEntry))}
    (h : mapE gameAppends games = .ok ls) :
    (ls.flatten.filter (fun q => decide (q.1 = c))).map (fun q => q.2)
      = (games.map (gameContrib c)).flatten := by
  induction games generalizing ls with
  | nil => rw [mapE_ok_nil h]; simp
  | cons g rest ih =>
      obtain ⟨L, ls', hg, hrest, hls⟩ := mapE_ok_cons h
      subst hls
      simp only [List.flatten_cons, List.filter_append, List.map_append,
        List.map_cons]
      rw [ih hrest, gameContrib_of_gameAppends hg]

/-- C5: process_games visits games in the given order, the away roster of
each game strictly before its home roster, players in roster-list order;
hence each category list of the returned results is exactly the
concatenation, game by game, of the away-side entries followed by the
home-side entries of that category. -/
theorem process_games_ordering (games : List Game) (r : MilestoneResults)
    (h : process_games games = .ok r) (c : Cat) :
    r c = (games.map (gameContrib c)).flatten := by
  unfold process_games at h
  cases hm : mapE gameAppends games with
  | error e => rw [hm] at h; simp at h
  | ok ls =>
      rw [hm] at h
      simp only [Except.ok.injEq] at h
      subst h
      rw [applyAppends_apply]
      show emptyResults c ++ _ = _
      rw [gamesContrib_of_mapE hm]
      simp [emptyResults]

/-- A 25-point player with the given name. -/
def scorer25 (nm : String) : Player :=
  { emptyPlayer with name := some (.str nm), pts := some (.int 25) }

def gameG1 : Game :=
  ⟨some "202401150LAL",
    some ⟨some "2024-01-15", Option.none, some "LAL", some "BOS"⟩,
    some ⟨some ⟨some [scorer25 "A1"], Option.none⟩,
          some ⟨some [scorer25 "H1"], Option.none⟩⟩⟩

def gameG2 : Game :=
  ⟨some "202401160NYK",
    some ⟨some "2024-01-16", Option.none, some "NYK", some "CHI"⟩,
    some ⟨some ⟨some [scorer25 "A2"], Option.none⟩,
          some ⟨some [scorer25 "H2"], Option.none⟩⟩⟩

def demoGames : List Game := [gameG1, gameG2]

def demoR : MilestoneResults :=
  (process_games demoGames).toOption.getD emptyResults

set_option maxHeartbeats 4000000 in
/-- C5 witness: two processed games, each with one away and one home
player, order the twenty_five_point_games list G1-away, G1-home, G2-away,
G2-home. -/
theorem process_games_ordering_witness :
    demoR Cat.twenty_five_point_games
      = (demoGames.map (gameContrib Cat.twenty_five_point_games)).flatten :=
  process_games_ordering demoGames demoR rfl Cat.twenty_five_point_games
